import Mathlib

/-!
Verification of the solana-escrow program (an atomic two-party token swap).

The development shallowly embeds the program's Rust sources:

* `src/state.rs`   — the `Escrow` record and its fixed-width codec
  (`unpack_from_slice` / `pack_into_slice`, plus the `Pack` trait's
  `unpack`, `unpack_unchecked` and `pack` wrappers that enforce the exact
  105-byte length and the initialization flag);
* `src/error.rs`   — the `EscrowError` enum and its conversion to
  `ProgramError::Custom`;
* `src/processor.rs` — the two handlers `process_init_escrow` (Open) and
  `process_exchange` (Settle).

Machine integers are modelled as `Nat` (u64 overflow is explicit where the
source uses `checked_add`); byte buffers are `List Nat`; 32-byte addresses
(`Pubkey`) are `List Nat` of length 32.  Out-of-scope collaborators (the
token sub-program's account state, the rent sysvar, program-derived-address
computation, and the runtime's execution of nested instructions) are
modelled at their interfaces, as the specification scopes them: the token
account is represented by the result of the token program's unpack on it,
rent exemption and the CPI executor are handler parameters, and the derived
authority is passed in as the (address, bump) pair that
`find_program_address` returns.  Each handler yields the ordered trace of
nested token-program instructions it issued together with its
success-or-error result, so that ordering properties ("no asset movement
before validation") are directly expressible.
-/

/-- The error type returned to the runtime (solana_program's `ProgramError`);
only the variants this program can produce are listed. -/
inductive ProgramError where
  | Custom (code : Nat)
  | InvalidAccountData
  | IncorrectProgramId
  | MissingRequiredSignature
  | AccountAlreadyInitialized
  | UninitializedAccount
  | NotEnoughAccountKeys
  deriving DecidableEq, Repr

/-- `EscrowError` from `src/error.rs`, variants in declaration order. -/
inductive EscrowError where
  | InvalidInstruction
  | NotRentExempt
  | ExpectedAmountMismatch
  | AmountOverflow
  deriving DecidableEq, Repr

/-- The discriminant of each `EscrowError` variant: Rust assigns fieldless
enum discriminants from 0 in declaration order, and `e as u32` reads it. -/
def EscrowError.toCode : EscrowError → Nat
  | .InvalidInstruction => 0
  | .NotRentExempt => 1
  | .ExpectedAmountMismatch => 2
  | .AmountOverflow => 3

/-- `impl From<EscrowError> for ProgramError` from `src/error.rs`:
`ProgramError::Custom(e as u32)`. -/
def EscrowError.toProgramError (e : EscrowError) : ProgramError :=
  .Custom e.toCode

/-- Little-endian byte decoding (`u64::from_le_bytes` on the 8-byte slice). -/
def leBytesToNat : List Nat → Nat
  | [] => 0
  | b :: bs => b + 256 * leBytesToNat bs

/-- Little-endian byte encoding with a fixed byte count
(`u64::to_le_bytes` is `natToLeBytes 8`). -/
def natToLeBytes : Nat → Nat → List Nat
  | 0, _ => []
  | k + 1, n => n % 256 :: natToLeBytes k (n / 256)

/-- The `Escrow` record from `src/state.rs`.  `Pubkey`s are 32-byte lists;
`expected_amount` is a u64 (a `Nat` below `2^64`). -/
structure Escrow where
  is_initialized : Bool
  initializer_pubkey : List Nat
  temp_token_account_pubkey : List Nat
  initializer_token_to_receive_account_pubkey : List Nat
  expected_amount : Nat
  deriving DecidableEq, Repr

/-- `Escrow::LEN = 1 + 3*32 + 8 = 105` from `src/state.rs`. -/
def Escrow.LEN : Nat := 105

/-- Well-formedness of an in-memory record: the three addresses are 32 bytes
and the amount fits in a u64. -/
def Escrow.wf (e : Escrow) : Prop :=
  e.initializer_pubkey.length = 32 ∧
  e.temp_token_account_pubkey.length = 32 ∧
  e.initializer_token_to_receive_account_pubkey.length = 32 ∧
  e.expected_amount < 2 ^ 64

/-- The `match` on the one-byte `is_initialized` field in
`Escrow::unpack_from_slice`: `[0]` is `false`, `[1]` is `true`, anything
else is `InvalidAccountData`. -/
def byteToBool : List Nat → Except ProgramError Bool
  | [0] => .ok false
  | [1] => .ok true
  | _ => .error ProgramError.InvalidAccountData

/-- `Escrow::unpack_from_slice` from `src/state.rs`: split the buffer into
sections of 1, 32, 32, 32 and 8 bytes (the source's `array_refs!`), decode
the boolean byte, and build the record.  Its callers (the `Pack` wrappers
below) have already checked that the buffer is exactly `Escrow::LEN`
bytes. -/
def Escrow.unpack_from_slice (src : List Nat) : Except ProgramError Escrow :=
  let is_initialized_section := src.take 1
  let rest1 := src.drop 1
  let initializer_pubkey := rest1.take 32
  let rest2 := rest1.drop 32
  let temp_token_account_pubkey := rest2.take 32
  let rest3 := rest2.drop 32
  let initializer_token_to_receive_account_pubkey := rest3.take 32
  let rest4 := rest3.drop 32
  let expected_amount_section := rest4.take 8
  match byteToBool is_initialized_section with
  | .error e => .error e
  | .ok is_initialized =>
      .ok { is_initialized,
            initializer_pubkey,
            temp_token_account_pubkey,
            initializer_token_to_receive_account_pubkey,
            expected_amount := leBytesToNat expected_amount_section }

/-- `Escrow::pack_into_slice` from `src/state.rs`: the boolean byte followed
by the three addresses and the little-endian amount, 105 bytes in all. -/
def Escrow.pack_into_slice (e : Escrow) : List Nat :=
  [if e.is_initialized then 1 else 0] ++
    e.initializer_pubkey ++
    e.temp_token_account_pubkey ++
    e.initializer_token_to_receive_account_pubkey ++
    natToLeBytes 8 e.expected_amount

/-- The `Pack` trait's `unpack_unchecked` (solana_program's provided method,
which `Escrow` inherits): reject any buffer whose length is not exactly
`Escrow::LEN`, then call `unpack_from_slice`.  This is the permissive
decode: it does not require the record to be initialized. -/
def Escrow.unpack_unchecked (src : List Nat) : Except ProgramError Escrow :=
  if src.length ≠ Escrow.LEN then .error ProgramError.InvalidAccountData
  else Escrow.unpack_from_slice src

/-- The `Pack` trait's `unpack` (solana_program's provided method): the
strict decode used by the Settle handler — `unpack_unchecked` followed by
the `is_initialized` gate, failing with `UninitializedAccount` on an
uninitialized record. -/
def Escrow.unpack (src : List Nat) : Except ProgramError Escrow :=
  match Escrow.unpack_unchecked src with
  | .error e => .error e
  | .ok value =>
      if value.is_initialized then .ok value
      else .error ProgramError.UninitializedAccount

/-- The `Pack` trait's `pack` (solana_program's provided method): reject a
destination buffer whose length is not exactly `Escrow::LEN`, then
overwrite it with `pack_into_slice`. -/
def Escrow.pack (e : Escrow) (dst : List Nat) : Except ProgramError (List Nat) :=
  if dst.length ≠ Escrow.LEN then .error ProgramError.InvalidAccountData
  else .ok e.pack_into_slice

theorem take_append_eq {α : Type} (l₁ l₂ : List α) (n : Nat) (h : l₁.length = n) :
    (l₁ ++ l₂).take n = l₁ := by
  subst h
  induction l₁ with
  | nil => simp
  | cons a t ih => simp [ih]

theorem drop_append_eq {α : Type} (l₁ l₂ : List α) (n : Nat) (h : l₁.length = n) :
    (l₁ ++ l₂).drop n = l₂ := by
  subst h
  induction l₁ with
  | nil => simp
  | cons a t ih => simp [ih]

theorem natToLeBytes_length (k n : Nat) : (natToLeBytes k n).length = k := by
  induction k generalizing n with
  | zero => rfl
  | succ k ih => simp [natToLeBytes, ih]

theorem leBytesToNat_natToLeBytes (k n : Nat) (h : n < 256 ^ k) :
    leBytesToNat (natToLeBytes k n) = n := by
  induction k generalizing n with
  | zero =>
      simp [natToLeBytes, leBytesToNat]
      omega
  | succ k ih =>
      have hdiv : n / 256 < 256 ^ k := by
        rw [Nat.div_lt_iff_lt_mul (by norm_num)]
        calc n < 256 ^ (k + 1) := h
        _ = 256 ^ k * 256 := by ring
      simp [natToLeBytes, leBytesToNat, ih _ hdiv]
      omega

theorem byteToBool_ne (b : Nat) (h0 : b ≠ 0) (h1 : b ≠ 1) :
    byteToBool [b] = .error ProgramError.InvalidAccountData := by
  match b, h0, h1 with
  | 0, h0, _ => exact absurd rfl h0
  | 1, _, h1 => exact absurd rfl h1
  | n + 2, _, _ => rfl

/-- C6: for every well-formed `Escrow` record (genuine boolean flag, 32-byte
addresses, u64 amount), decoding the 105-byte buffer produced by encoding it
yields the record back: `decode (encode r) = r`. -/
theorem escrow_codec_roundtrip (e : Escrow) (hwf : e.wf) :
    Escrow.unpack_unchecked (Escrow.pack_into_slice e) = .ok e := by
  obtain ⟨h1, h2, h3, h4⟩ := hwf
  obtain ⟨init, p1, p2, p3, amt⟩ := e
  simp only at h1 h2 h3 h4
  have hnle : (natToLeBytes 8 amt).length = 8 := natToLeBytes_length 8 amt
  have hpack : Escrow.pack_into_slice ⟨init, p1, p2, p3, amt⟩ =
      [if init then 1 else 0] ++ (p1 ++ (p2 ++ (p3 ++ natToLeBytes 8 amt))) := by
    simp [Escrow.pack_into_slice]
  have hlen : ([if init then (1:Nat) else 0] ++
      (p1 ++ (p2 ++ (p3 ++ natToLeBytes 8 amt)))).length = 105 := by
    simp only [List.length_append, List.length_cons, List.length_nil]
    omega
  have t1 : ([if init then (1:Nat) else 0] ++
      (p1 ++ (p2 ++ (p3 ++ natToLeBytes 8 amt)))).take 1 = [if init then 1 else 0] :=
    take_append_eq _ _ _ (by simp)
  have d1 : ([if init then (1:Nat) else 0] ++
      (p1 ++ (p2 ++ (p3 ++ natToLeBytes 8 amt)))).drop 1 =
      p1 ++ (p2 ++ (p3 ++ natToLeBytes 8 amt)) :=
    drop_append_eq _ _ _ (by simp)
  have t2 : (p1 ++ (p2 ++ (p3 ++ natToLeBytes 8 amt))).take 32 = p1 :=
    take_append_eq _ _ _ h1
  have d2 : (p1 ++ (p2 ++ (p3 ++ natToLeBytes 8 amt))).drop 32 =
      p2 ++ (p3 ++ natToLeBytes 8 amt) :=
    drop_append_eq _ _ _ h1
  have t3 : (p2 ++ (p3 ++ natToLeBytes 8 amt)).take 32 = p2 :=
    take_append_eq _ _ _ h2
  have d3 : (p2 ++ (p3 ++ natToLeBytes 8 amt)).drop 32 = p3 ++ natToLeBytes 8 amt :=
    drop_append_eq _ _ _ h2
  have t4 : (p3 ++ natToLeBytes 8 amt).take 32 = p3 :=
    take_append_eq _ _ _ h3
  have d4 : (p3 ++ natToLeBytes 8 amt).drop 32 = natToLeBytes 8 amt :=
    drop_append_eq _ _ _ h3
  have t5 : (natToLeBytes 8 amt).take 8 = natToLeBytes 8 amt :=
    List.take_of_length_le (le_of_eq hnle)
  have hamt : leBytesToNat (natToLeBytes 8 amt) = amt :=
    leBytesToNat_natToLeBytes 8 amt (by norm_num at h4 ⊢; exact h4)
  rw [hpack, Escrow.unpack_unchecked, if_neg (by rw [hlen]; decide)]
  rw [Escrow.unpack_from_slice]
  simp only [t1, d1, t2, d2, t3, d3, t4, d4, t5]
  cases init <;> simp [byteToBool, hamt]

theorem escrow_codec_roundtrip_witness :
    (Escrow.mk true (List.replicate 32 1) (List.replicate 32 2)
        (List.replicate 32 3) 100).wf ∧
    Escrow.unpack_unchecked (Escrow.pack_into_slice
        (Escrow.mk true (List.replicate 32 1) (List.replicate 32 2)
          (List.replicate 32 3) 100)) =
      .ok (Escrow.mk true (List.replicate 32 1) (List.replicate 32 2)
        (List.replicate 32 3) 100) :=
  ⟨by simp [Escrow.wf],
   escrow_codec_roundtrip _ (by simp [Escrow.wf])⟩

/-- C7: the strict decode `Escrow::unpack` is a total function on byte
buffers (it is a Lean function, so it cannot panic), it fails with
`InvalidAccountData` on every buffer whose length is not 105, and it fails
with `InvalidAccountData` on every 105-byte buffer whose boolean byte is
neither 0 nor 1. -/
theorem strict_decode_rejects_malformed :
    (∀ src : List Nat, src.length ≠ 105 →
      Escrow.unpack src = .error ProgramError.InvalidAccountData) ∧
    (∀ (b : Nat) (rest : List Nat), (b :: rest).length = 105 → b ≠ 0 → b ≠ 1 →
      Escrow.unpack (b :: rest) = .error ProgramError.InvalidAccountData) := by
  constructor
  · intro src h
    simp [Escrow.unpack, Escrow.unpack_unchecked, Escrow.LEN, h]
  · intro b rest hlen hb0 hb1
    have hfs : Escrow.unpack_from_slice (b :: rest) =
        .error ProgramError.InvalidAccountData := by
      rw [Escrow.unpack_from_slice]
      simp only [show (b :: rest).take 1 = [b] from rfl, byteToBool_ne b hb0 hb1]
    simp [Escrow.unpack, Escrow.unpack_unchecked, Escrow.LEN, hlen, hfs]

theorem strict_decode_rejects_malformed_witness :
    Escrow.unpack [] = .error ProgramError.InvalidAccountData ∧
    Escrow.unpack (7 :: List.replicate 104 0) = .error ProgramError.InvalidAccountData :=
  ⟨strict_decode_rejects_malformed.1 [] (by decide),
   strict_decode_rejects_malformed.2 7 (List.replicate 104 0)
     (by simp) (by decide) (by decide)⟩

/-- C10: every `EscrowError` converts to `ProgramError::Custom(n)` with the
fixed code given by declaration order — `InvalidInstruction = 0`,
`NotRentExempt = 1`, `ExpectedAmountMismatch = 2`, `AmountOverflow = 3` —
and the conversion is injective, so each custom failure reason is
distinguishable at the external interface. -/
theorem escrow_error_codes :
    EscrowError.toProgramError .InvalidInstruction = .Custom 0 ∧
    EscrowError.toProgramError .NotRentExempt = .Custom 1 ∧
    EscrowError.toProgramError .ExpectedAmountMismatch = .Custom 2 ∧
    EscrowError.toProgramError .AmountOverflow = .Custom 3 ∧
    ∀ e₁ e₂ : EscrowError,
      EscrowError.toProgramError e₁ = EscrowError.toProgramError e₂ → e₁ = e₂ := by
  refine ⟨rfl, rfl, rfl, rfl, ?_⟩
  intro e₁ e₂ h
  cases e₁ <;> cases e₂ <;> simp_all [EscrowError.toProgramError, EscrowError.toCode]

/-- The token sub-program's view of a token account, modelled at its
interface (the sub-program is out of scope per the specification): the
processor reads only the `amount` field of the unpacked account. -/
structure TokenAccount where
  amount : Nat
  deriving DecidableEq, Repr

/-- A runtime account handle (solana_program's `AccountInfo`), restricted to
the fields the processor reads: address, signer flag, lamport balance, data
bytes, owning program.  `spl_account` is the interface-level model of what
the token sub-program's `Account::unpack` yields on this account's data
(`none` when that unpack fails). -/
structure AccountInfo where
  key : List Nat
  is_signer : Bool
  lamports : Nat
  data : List Nat
  owner : List Nat
  spl_account : Option TokenAccount
  deriving DecidableEq, Repr

/-- `spl_token::state::Account::unpack` at its interface: succeed with the
modelled token-account contents, or fail as the token sub-program would on
data that is not a valid initialized token account. -/
def TokenAccount.unpack : Option TokenAccount → Except ProgramError TokenAccount
  | some t => .ok t
  | none => .error ProgramError.InvalidAccountData

/-- The token sub-program's fixed address (`spl_token::id()`), an opaque
32-byte constant; the processor only ever compares addresses against it. -/
def spl_token_id : List Nat := List.replicate 32 6

/-- A nested token-program instruction built by the processor
(`spl_token::instruction::{set_authority, transfer, close_account}`).
`setAuthority` carries the account whose authority changes, the new
authority (the derived address) and the current authority; the authority
type is always `AccountOwner` in this program. -/
inductive TokenOp where
  | setAuthority (token_program account : List Nat)
      (new_authority : Option (List Nat)) (current_authority : List Nat)
  | transfer (token_program source destination authority : List Nat) (amount : Nat)
  | closeAccount (token_program account destination authority : List Nat)
  deriving DecidableEq, Repr

/-- One issued cross-program invocation: the instruction together with the
bump seed when it was issued through `invoke_signed` with the seeds
`[b"escrow", bump]` (`none` for a plain `invoke`). -/
structure Invocation where
  ix : TokenOp
  signer_bump : Option Nat
  deriving DecidableEq, Repr

/-- `spl_token::instruction::set_authority` builder: the spl-token crate's
builders first check that the supplied program id is the token program's
(`IncorrectProgramId` otherwise), then produce the instruction. -/
def spl_set_authority (token_program_id account : List Nat)
    (new_authority : Option (List Nat)) (current_authority : List Nat) :
    Except ProgramError TokenOp :=
  if token_program_id = spl_token_id then
    .ok (.setAuthority token_program_id account new_authority current_authority)
  else .error ProgramError.IncorrectProgramId

/-- `spl_token::instruction::transfer` builder, with the same program-id
check as `spl_set_authority`. -/
def spl_transfer (token_program_id source destination authority : List Nat)
    (amount : Nat) : Except ProgramError TokenOp :=
  if token_program_id = spl_token_id then
    .ok (.transfer token_program_id source destination authority amount)
  else .error ProgramError.IncorrectProgramId

/-- `spl_token::instruction::close_account` builder, with the same
program-id check as `spl_set_authority`. -/
def spl_close_account (token_program_id account destination authority : List Nat) :
    Except ProgramError TokenOp :=
  if token_program_id = spl_token_id then
    .ok (.closeAccount token_program_id account destination authority)
  else .error ProgramError.IncorrectProgramId

/-- `u64::checked_add`: `none` exactly when the sum does not fit in 64
bits. -/
def u64_checked_add (a b : Nat) : Option Nat :=
  if a + b < 2 ^ 64 then some (a + b) else none

/-- The state written by a successful Open call: the serialized escrow
record now held in the escrow account's data. -/
structure InitEscrowResult where
  escrow_data : List Nat
  deriving DecidableEq, Repr

/-- The state written by a successful Settle call: the initializer's main
account balance after the rent refund, and the escrow account's zeroed
balance and cleared data. -/
structure ExchangeResult where
  initializers_main_lamports : Nat
  escrow_lamports : Nat
  escrow_data : List Nat
  deriving DecidableEq, Repr

/-- `Processor::process_init_escrow` from `src/processor.rs` (the Open
handler).  `cpi` is the runtime's executor for nested instructions, `rent_is_exempt`
the rent sysvar's exemption query on (lamports, data length), and `pda` the
address returned by `find_program_address([b"escrow"], program_id)` — all
runtime collaborators the specification scopes out.  Accounts are consumed
positionally exactly as the source's `next_account_info` calls do; the
result pairs the ordered trace of issued invocations with the outcome. -/
def process_init_escrow (cpi : Invocation → Except ProgramError Unit)
    (rent_is_exempt : Nat → Nat → Bool) (pda : List Nat)
    (accounts : List AccountInfo) (amount : Nat) :
    List Invocation × Except ProgramError InitEscrowResult :=
  match accounts with
  | [] => ([], .error ProgramError.NotEnoughAccountKeys)
  | initializer :: accounts1 =>
    if !initializer.is_signer then ([], .error ProgramError.MissingRequiredSignature)
    else
      match accounts1 with
      | temp_token_account :: token_to_receive_account :: accounts2 =>
        if token_to_receive_account.owner ≠ spl_token_id then
          ([], .error ProgramError.IncorrectProgramId)
        else
          match accounts2 with
          | escrow_account :: _rent_sysvar_account :: accounts3 =>
            if !rent_is_exempt escrow_account.lamports escrow_account.data.length then
              ([], .error (EscrowError.toProgramError .NotRentExempt))
            else
              match Escrow.unpack_unchecked escrow_account.data with
              | .error e => ([], .error e)
              | .ok escrow_info =>
                if escrow_info.is_initialized then
                  ([], .error ProgramError.AccountAlreadyInitialized)
                else
                  match Escrow.pack
                      { is_initialized := true,
                        initializer_pubkey := initializer.key,
                        temp_token_account_pubkey := temp_token_account.key,
                        initializer_token_to_receive_account_pubkey :=
                          token_to_receive_account.key,
                        expected_amount := amount }
                      escrow_account.data with
                  | .error e => ([], .error e)
                  | .ok new_escrow_data =>
                    match accounts3 with
                    | [] => ([], .error ProgramError.NotEnoughAccountKeys)
                    | token_program :: _ =>
                      match spl_set_authority token_program.key
                          temp_token_account.key (some pda) initializer.key with
                      | .error e => ([], .error e)
                      | .ok owner_change_ix =>
                        match cpi ⟨owner_change_ix, none⟩ with
                        | .error e => ([⟨owner_change_ix, none⟩], .error e)
                        | .ok _ => ([⟨owner_change_ix, none⟩], .ok ⟨new_escrow_data⟩)
          | _ => ([], .error ProgramError.NotEnoughAccountKeys)
      | _ => ([], .error ProgramError.NotEnoughAccountKeys)

/-- `Processor::process_exchange` from `src/processor.rs` (the Settle
handler).  `cpi`, `pda` and `bump_seed` are the runtime collaborators as in
`process_init_escrow` (`(pda, bump_seed)` is the pair returned by
`find_program_address([b"escrow"], program_id)`).  Accounts are consumed
positionally as in the source; the result pairs the ordered trace of issued
invocations with the outcome, so that what was issued before a failure is
visible. -/
def process_exchange (cpi : Invocation → Except ProgramError Unit)
    (pda : List Nat) (bump_seed : Nat)
    (accounts : List AccountInfo) (amount_expected_by_taker : Nat) :
    List Invocation × Except ProgramError ExchangeResult :=
  match accounts with
  | [] => ([], .error ProgramError.NotEnoughAccountKeys)
  | taker :: accounts1 =>
    if !taker.is_signer then ([], .error ProgramError.MissingRequiredSignature)
    else
      match accounts1 with
      | takers_sending_token_account :: takers_receiving_token_account ::
          pdas_temp_token_account :: accounts2 =>
        match TokenAccount.unpack pdas_temp_token_account.spl_account with
        | .error e => ([], .error e)
        | .ok pdas_temp_token_account_info =>
          if amount_expected_by_taker ≠ pdas_temp_token_account_info.amount then
            ([], .error (EscrowError.toProgramError .ExpectedAmountMismatch))
          else
            match accounts2 with
            | initializers_main_account :: initializers_token_to_receive_account ::
                escrow_account :: accounts3 =>
              match Escrow.unpack escrow_account.data with
              | .error e => ([], .error e)
              | .ok escrow_info =>
                if escrow_info.temp_token_account_pubkey ≠ pdas_temp_token_account.key then
                  ([], .error ProgramError.InvalidAccountData)
                else if escrow_info.initializer_pubkey ≠ initializers_main_account.key then
                  ([], .error ProgramError.InvalidAccountData)
                else if escrow_info.initializer_token_to_receive_account_pubkey ≠
                    initializers_token_to_receive_account.key then
                  ([], .error ProgramError.InvalidAccountData)
                else
                  match accounts3 with
                  | [] => ([], .error ProgramError.NotEnoughAccountKeys)
                  | token_program :: accounts4 =>
                    match spl_transfer token_program.key
                        takers_sending_token_account.key
                        initializers_token_to_receive_account.key
                        taker.key escrow_info.expected_amount with
                    | .error e => ([], .error e)
                    | .ok transfer_to_initializer_ix =>
                      match cpi ⟨transfer_to_initializer_ix, none⟩ with
                      | .error e => ([⟨transfer_to_initializer_ix, none⟩], .error e)
                      | .ok _ =>
                        match accounts4 with
                        | [] => ([⟨transfer_to_initializer_ix, none⟩],
                                 .error ProgramError.NotEnoughAccountKeys)
                        | _pda_account :: _ =>
                          match spl_transfer token_program.key
                              pdas_temp_token_account.key
                              takers_receiving_token_account.key
                              pda pdas_temp_token_account_info.amount with
                          | .error e => ([⟨transfer_to_initializer_ix, none⟩], .error e)
                          | .ok transfer_to_taker_ix =>
                            match cpi ⟨transfer_to_taker_ix, some bump_seed⟩ with
                            | .error e =>
                                ([⟨transfer_to_initializer_ix, none⟩,
                                  ⟨transfer_to_taker_ix, some bump_seed⟩], .error e)
                            | .ok _ =>
                              match spl_close_account token_program.key
                                  pdas_temp_token_account.key
                                  initializers_main_account.key pda with
                              | .error e =>
                                  ([⟨transfer_to_initializer_ix, none⟩,
                                    ⟨transfer_to_taker_ix, some bump_seed⟩], .error e)
                              | .ok close_pdas_temp_acc_ix =>
                                match cpi ⟨close_pdas_temp_acc_ix, some bump_seed⟩ with
                                | .error e =>
                                    ([⟨transfer_to_initializer_ix, none⟩,
                                      ⟨transfer_to_taker_ix, some bump_seed⟩,
                                      ⟨close_pdas_temp_acc_ix, some bump_seed⟩], .error e)
                                | .ok _ =>
                                  match u64_checked_add
                                      initializers_main_account.lamports
                                      escrow_account.lamports with
                                  | none =>
                                      ([⟨transfer_to_initializer_ix, none⟩,
                                        ⟨transfer_to_taker_ix, some bump_seed⟩,
                                        ⟨close_pdas_temp_acc_ix, some bump_seed⟩],
                                       .error (EscrowError.toProgramError .AmountOverflow))
                                  | some new_lamports =>
                                      ([⟨transfer_to_initializer_ix, none⟩,
                                        ⟨transfer_to_taker_ix, some bump_seed⟩,
                                        ⟨close_pdas_temp_acc_ix, some bump_seed⟩],
                                       .ok ⟨new_lamports, 0, []⟩)
            | _ => ([], .error ProgramError.NotEnoughAccountKeys)
      | _ => ([], .error ProgramError.NotEnoughAccountKeys)

/-- The all-zero 32-byte address, used as a concrete sample key. -/
def zero32 : List Nat := List.replicate 32 0

/-- A concrete sample account: signer, zero balance, all-zero key and
owner, data and token-account view supplied per use. -/
def mkAccount (k : Nat) (signer : Bool) (lam : Nat) (d : List Nat)
    (ow : List Nat) (tok : Option TokenAccount) : AccountInfo :=
  ⟨List.replicate 32 k, signer, lam, d, ow, tok⟩

/-- A concrete well-formed initialized escrow record for witnesses. -/
def sampleRecord : Escrow :=
  ⟨true, List.replicate 32 4, List.replicate 32 3, List.replicate 32 5, 100⟩

/-- C2: in the Settle handler, whenever the amount argument differs from the
holding account's live token balance, the call fails with
`ExpectedAmountMismatch` — the comparison baseline is the live balance read
from the holding account, not the stored record (which the handler has not
even decoded yet at this point). -/
theorem settle_amount_mismatch
    (cpi : Invocation → Except ProgramError Unit) (pda : List Nat) (bump : Nat)
    (taker tsend trecv ptemp : AccountInfo) (rest : List AccountInfo)
    (amount : Nat) (info : TokenAccount)
    (hs : taker.is_signer = true)
    (hu : TokenAccount.unpack ptemp.spl_account = .ok info)
    (hne : amount ≠ info.amount) :
    process_exchange cpi pda bump (taker :: tsend :: trecv :: ptemp :: rest) amount =
      ([], .error (EscrowError.toProgramError .ExpectedAmountMismatch)) := by
  simp [process_exchange, hs, hu, hne]

/-- C2 witness: a concrete Settle call where the amount argument equals the
record's stored `expected_amount` (100) but not the live balance (50) fails
with `ExpectedAmountMismatch` (`Custom 2`). -/
theorem settle_amount_mismatch_witness :
    process_exchange (fun _ => .ok ()) zero32 0
      (mkAccount 1 true 0 [] zero32 none ::
        mkAccount 2 true 0 [] zero32 none ::
        mkAccount 6 true 0 [] zero32 none ::
        mkAccount 3 true 0 [] zero32 (some ⟨50⟩) ::
        [mkAccount 4 true 0 (Escrow.pack_into_slice sampleRecord) zero32 none]) 100 =
      ([], .error (EscrowError.toProgramError .ExpectedAmountMismatch)) :=
  settle_amount_mismatch _ _ _ _ _ _ _ _ _ _ rfl rfl (by decide)

/-- C1: in the Settle handler, if the stored holding-account identity, the
stored initializer identity, or the stored receiving-account identity in the
decoded escrow record differs from the corresponding supplied account, the
call fails with `InvalidAccountData`; this holds for every such account
substitution, whatever the rest of the substituted account's fields are. -/
theorem settle_identity_mismatch
    (cpi : Invocation → Except ProgramError Unit) (pda : List Nat) (bump : Nat)
    (taker tsend trecv ptemp imain irecv ea : AccountInfo)
    (rest : List AccountInfo) (amount : Nat) (info : TokenAccount) (e : Escrow)
    (hs : taker.is_signer = true)
    (hu : TokenAccount.unpack ptemp.spl_account = .ok info)
    (ha : amount = info.amount)
    (he : Escrow.unpack ea.data = .ok e)
    (hmm : e.temp_token_account_pubkey ≠ ptemp.key ∨
           e.initializer_pubkey ≠ imain.key ∨
           e.initializer_token_to_receive_account_pubkey ≠ irecv.key) :
    process_exchange cpi pda bump
      (taker :: tsend :: trecv :: ptemp :: imain :: irecv :: ea :: rest) amount =
      ([], .error ProgramError.InvalidAccountData) := by
  by_cases h1 : e.temp_token_account_pubkey = ptemp.key <;>
    by_cases h2 : e.initializer_pubkey = imain.key <;>
      by_cases h3 : e.initializer_token_to_receive_account_pubkey = irecv.key <;>
        simp_all [process_exchange, hs, hu, ha, he]

/-- C1 witness: a concrete Settle call where the supplied holding account's
key differs from the one stored in the record fails with
`InvalidAccountData`, even though the supplied account is otherwise valid
(signer flags, owner, live balance all in order). -/
theorem settle_identity_mismatch_witness :
    process_exchange (fun _ => .ok ()) zero32 0
      (mkAccount 1 true 0 [] zero32 none ::
        mkAccount 2 true 0 [] zero32 none ::
        mkAccount 6 true 0 [] zero32 none ::
        mkAccount 9 true 0 [] spl_token_id (some ⟨50⟩) ::
        mkAccount 4 true 0 [] zero32 none ::
        mkAccount 5 true 0 [] zero32 none ::
        [mkAccount 7 true 0 (Escrow.pack_into_slice sampleRecord) zero32 none]) 50 =
      ([], .error ProgramError.InvalidAccountData) :=
  settle_identity_mismatch (fun _ => .ok ()) zero32 0
    (mkAccount 1 true 0 [] zero32 none) (mkAccount 2 true 0 [] zero32 none)
    (mkAccount 6 true 0 [] zero32 none)
    (mkAccount 9 true 0 [] spl_token_id (some ⟨50⟩))
    (mkAccount 4 true 0 [] zero32 none) (mkAccount 5 true 0 [] zero32 none)
    (mkAccount 7 true 0 (Escrow.pack_into_slice sampleRecord) zero32 none)
    [] 50 ⟨50⟩ sampleRecord
    rfl rfl rfl rfl (Or.inl (by decide))

/-- C4: when every Settle validation passes (and the nested invocations
succeed), the handler issues exactly three token operations in order — two
transfers followed by the holding-account close — where transfer #1 moves
`record.expected_amount` from the taker's paying account to the
initializer's receiving account authorized by the taker, and transfer #2
moves the holding account's full live balance to the taker's receiving
account authorized by the derived address with its bump; the taker's amount
argument appears in no transfer except through its forced equality with the
live balance. -/
theorem settle_success_trace
    (cpi : Invocation → Except ProgramError Unit) (pda : List Nat) (bump : Nat)
    (taker tsend trecv ptemp imain irecv ea tp pa : AccountInfo)
    (rest : List AccountInfo) (amount : Nat) (info : TokenAccount) (e : Escrow)
    (hs : taker.is_signer = true)
    (hu : TokenAccount.unpack ptemp.spl_account = .ok info)
    (ha : amount = info.amount)
    (he : Escrow.unpack ea.data = .ok e)
    (h1 : e.temp_token_account_pubkey = ptemp.key)
    (h2 : e.initializer_pubkey = imain.key)
    (h3 : e.initializer_token_to_receive_account_pubkey = irecv.key)
    (htp : tp.key = spl_token_id)
    (hcpi : ∀ inv, cpi inv = .ok ())
    (hov : imain.lamports + ea.lamports < 2 ^ 64) :
    process_exchange cpi pda bump
      (taker :: tsend :: trecv :: ptemp :: imain :: irecv :: ea :: tp :: pa :: rest)
      amount =
      ([⟨.transfer tp.key tsend.key irecv.key taker.key e.expected_amount, none⟩,
        ⟨.transfer tp.key ptemp.key trecv.key pda info.amount, some bump⟩,
        ⟨.closeAccount tp.key ptemp.key imain.key pda, some bump⟩],
       .ok ⟨imain.lamports + ea.lamports, 0, []⟩) := by
  have hov' : imain.lamports + ea.lamports < 18446744073709551616 := by
    calc imain.lamports + ea.lamports < 2 ^ 64 := hov
    _ = 18446744073709551616 := by norm_num
  simp [process_exchange, hs, hu, ha, he, h1, h2, h3, htp, hcpi,
    spl_transfer, spl_close_account, u64_checked_add, hov']

/-- C4 witness: the end-to-end scenario — record expects 100 of asset Y,
holding balance 50 of asset X, taker calls with amount 50 — issues exactly
the transfer of 100 to the initializer's receiving account, the transfer of
50 to the taker, and the holding-account close, then succeeds with the rent
refund credited. -/
theorem settle_success_trace_witness :
    process_exchange (fun _ => .ok ()) zero32 251
      (mkAccount 1 true 0 [] zero32 none ::
        mkAccount 2 true 0 [] zero32 none ::
        mkAccount 8 true 0 [] zero32 none ::
        mkAccount 3 true 0 [] zero32 (some ⟨50⟩) ::
        mkAccount 4 true 10 [] zero32 none ::
        mkAccount 5 true 0 [] zero32 none ::
        mkAccount 7 true 20 (Escrow.pack_into_slice sampleRecord) zero32 none ::
        mkAccount 6 true 0 [] zero32 none ::
        [mkAccount 9 true 0 [] zero32 none]) 50 =
      ([⟨.transfer spl_token_id (List.replicate 32 2) (List.replicate 32 5)
            (List.replicate 32 1) 100, none⟩,
        ⟨.transfer spl_token_id (List.replicate 32 3) (List.replicate 32 8)
            zero32 50, some 251⟩,
        ⟨.closeAccount spl_token_id (List.replicate 32 3) (List.replicate 32 4)
            zero32, some 251⟩],
       .ok ⟨30, 0, []⟩) :=
  settle_success_trace (fun _ => .ok ()) zero32 251
    (mkAccount 1 true 0 [] zero32 none) (mkAccount 2 true 0 [] zero32 none)
    (mkAccount 8 true 0 [] zero32 none)
    (mkAccount 3 true 0 [] zero32 (some ⟨50⟩))
    (mkAccount 4 true 10 [] zero32 none) (mkAccount 5 true 0 [] zero32 none)
    (mkAccount 7 true 20 (Escrow.pack_into_slice sampleRecord) zero32 none)
    (mkAccount 6 true 0 [] zero32 none) (mkAccount 9 true 0 [] zero32 none)
    [] 50 ⟨50⟩ sampleRecord
    rfl rfl rfl rfl (by decide) (by decide) (by decide) (by decide)
    (fun _ => rfl) (by decide)

/-- C8: in the Settle handler's escrow-record close step, the rent refund
uses `u64::checked_add`; whenever the initializer's balance plus the escrow
account's balance does not fit in 64 bits, the call fails with
`AmountOverflow` instead of wrapping. -/
theorem settle_rent_refund_overflow
    (cpi : Invocation → Except ProgramError Unit) (pda : List Nat) (bump : Nat)
    (taker tsend trecv ptemp imain irecv ea tp pa : AccountInfo)
    (rest : List AccountInfo) (amount : Nat) (info : TokenAccount) (e : Escrow)
    (hs : taker.is_signer = true)
    (hu : TokenAccount.unpack ptemp.spl_account = .ok info)
    (ha : amount = info.amount)
    (he : Escrow.unpack ea.data = .ok e)
    (h1 : e.temp_token_account_pubkey = ptemp.key)
    (h2 : e.initializer_pubkey = imain.key)
    (h3 : e.initializer_token_to_receive_account_pubkey = irecv.key)
    (htp : tp.key = spl_token_id)
    (hcpi : ∀ inv, cpi inv = .ok ())
    (hov : 2 ^ 64 ≤ imain.lamports + ea.lamports) :
    (process_exchange cpi pda bump
      (taker :: tsend :: trecv :: ptemp :: imain :: irecv :: ea :: tp :: pa :: rest)
      amount).2 = .error (EscrowError.toProgramError .AmountOverflow) := by
  have hov' : ¬ imain.lamports + ea.lamports < 18446744073709551616 := by
    have h64 : (18446744073709551616 : Nat) = 2 ^ 64 := by norm_num
    rw [h64]
    exact Nat.not_lt.mpr hov
  simp [process_exchange, hs, hu, ha, he, h1, h2, h3, htp, hcpi,
    spl_transfer, spl_close_account, u64_checked_add, hov']

/-- C8 witness: balances `2^64 - 1` and `1` make the rent-refund addition
overflow a u64, and the call fails with `AmountOverflow` (`Custom 3`). -/
theorem settle_rent_refund_overflow_witness :
    (process_exchange (fun _ => .ok ()) zero32 251
      (mkAccount 1 true 0 [] zero32 none ::
        mkAccount 2 true 0 [] zero32 none ::
        mkAccount 8 true 0 [] zero32 none ::
        mkAccount 3 true 0 [] zero32 (some ⟨50⟩) ::
        mkAccount 4 true (2 ^ 64 - 1) [] zero32 none ::
        mkAccount 5 true 0 [] zero32 none ::
        mkAccount 7 true 1 (Escrow.pack_into_slice sampleRecord) zero32 none ::
        mkAccount 6 true 0 [] zero32 none ::
        [mkAccount 9 true 0 [] zero32 none]) 50).2 =
      .error (EscrowError.toProgramError .AmountOverflow) :=
  settle_rent_refund_overflow (fun _ => .ok ()) zero32 251
    (mkAccount 1 true 0 [] zero32 none) (mkAccount 2 true 0 [] zero32 none)
    (mkAccount 8 true 0 [] zero32 none)
    (mkAccount 3 true 0 [] zero32 (some ⟨50⟩))
    (mkAccount 4 true (2 ^ 64 - 1) [] zero32 none)
    (mkAccount 5 true 0 [] zero32 none)
    (mkAccount 7 true 1 (Escrow.pack_into_slice sampleRecord) zero32 none)
    (mkAccount 6 true 0 [] zero32 none) (mkAccount 9 true 0 [] zero32 none)
    [] 50 ⟨50⟩ sampleRecord
    rfl rfl rfl rfl (by decide) (by decide) (by decide) (by decide)
    (fun _ => rfl) (by decide)

/-- C5 (amended): an Open call on a record account already marked
initialized fails with `AccountAlreadyInitialized` provided the earlier
checks pass — the initializer signed, the receiving account is owned by the
token sub-program, and the record account is rent exempt; when one of those
earlier checks fails, the call fails with that check's own error instead
(see the counterexample). -/
theorem open_already_initialized
    (cpi : Invocation → Except ProgramError Unit)
    (rent_is_exempt : Nat → Nat → Bool) (pda : List Nat)
    (initializer tta tra ea rs : AccountInfo) (rest : List AccountInfo)
    (amount : Nat) (e : Escrow)
    (hs : initializer.is_signer = true)
    (how : tra.owner = spl_token_id)
    (hrent : rent_is_exempt ea.lamports ea.data.length = true)
    (hdec : Escrow.unpack_unchecked ea.data = .ok e)
    (hinit : e.is_initialized = true) :
    process_init_escrow cpi rent_is_exempt pda
      (initializer :: tta :: tra :: ea :: rs :: rest) amount =
      ([], .error ProgramError.AccountAlreadyInitialized) := by
  simp [process_init_escrow, hs, how, hrent, hdec, hinit]

/-- C5 witness: a concrete Open call with a signed initializer, a
token-program-owned receiving account, a rent-exempt record account, and an
already-initialized record fails with `AccountAlreadyInitialized`. -/
theorem open_already_initialized_witness :
    process_init_escrow (fun _ => .ok ()) (fun _ _ => true) zero32
      (mkAccount 1 true 0 [] zero32 none ::
        mkAccount 3 true 0 [] zero32 none ::
        mkAccount 5 true 0 [] spl_token_id none ::
        mkAccount 7 true 10 (Escrow.pack_into_slice sampleRecord) zero32 none ::
        [mkAccount 10 true 0 [] zero32 none]) 100 =
      ([], .error ProgramError.AccountAlreadyInitialized) :=
  open_already_initialized (fun _ => .ok ()) (fun _ _ => true) zero32
    (mkAccount 1 true 0 [] zero32 none) (mkAccount 3 true 0 [] zero32 none)
    (mkAccount 5 true 0 [] spl_token_id none)
    (mkAccount 7 true 10 (Escrow.pack_into_slice sampleRecord) zero32 none)
    (mkAccount 10 true 0 [] zero32 none) [] 100 sampleRecord
    rfl rfl rfl rfl rfl

/-- C5 counterexample: the claim as stated fails — with an
already-initialized record but the initializer's signature absent, Open
fails with `MissingRequiredSignature`, not `AccountAlreadyInitialized`: the
signature, owner and rent checks all precede the initialization check. -/
theorem open_already_initialized_counterexample :
    Escrow.unpack_unchecked (Escrow.pack_into_slice sampleRecord) = .ok sampleRecord ∧
    sampleRecord.is_initialized = true ∧
    process_init_escrow (fun _ => .ok ()) (fun _ _ => true) zero32
      (mkAccount 1 false 0 [] zero32 none ::
        mkAccount 3 true 0 [] zero32 none ::
        mkAccount 5 true 0 [] spl_token_id none ::
        mkAccount 7 true 10 (Escrow.pack_into_slice sampleRecord) zero32 none ::
        [mkAccount 10 true 0 [] zero32 none]) 100 =
      ([], .error ProgramError.MissingRequiredSignature) ∧
    ProgramError.MissingRequiredSignature ≠ ProgramError.AccountAlreadyInitialized :=
  ⟨rfl, rfl, rfl, by decide⟩

/-- C9 (amended): a Settle call on an all-zero (uninitialized) escrow record
account always fails before any asset movement: the issued-invocation trace
is empty and the call errors — the uninitialized state being caught by the
strict record decode (`UninitializedAccount`) before the identity checks
run. -/
theorem settle_uninitialized_record_fails_first
    (cpi : Invocation → Except ProgramError Unit) (pda : List Nat) (bump : Nat)
    (accounts : List AccountInfo) (amount : Nat) (ea : AccountInfo)
    (h6 : accounts[6]? = some ea)
    (hz : ea.data = List.replicate 105 0) :
    (process_exchange cpi pda bump accounts amount).1 = [] ∧
    ∃ err, (process_exchange cpi pda bump accounts amount).2 = .error err := by
  have hun : Escrow.unpack ea.data = .error ProgramError.UninitializedAccount := by
    rw [hz]; rfl
  rcases accounts with _ | ⟨a0, _ | ⟨a1, _ | ⟨a2, _ | ⟨a3, _ | ⟨a4, _ | ⟨a5, _ | ⟨a6, rest⟩⟩⟩⟩⟩⟩⟩
  · exact absurd h6 (by simp)
  · exact absurd h6 (by simp)
  · exact absurd h6 (by simp)
  · exact absurd h6 (by simp)
  · exact absurd h6 (by simp)
  · exact absurd h6 (by simp)
  · exact absurd h6 (by simp)
  · have hea : a6 = ea := by simpa using h6
    subst hea
    by_cases hs : a0.is_signer
    · cases hu : TokenAccount.unpack a3.spl_account with
      | error eu => simp [process_exchange, hs, hu]
      | ok info =>
          by_cases ham : amount = info.amount
          · simp [process_exchange, hs, hu, ham, hun]
          · simp [process_exchange, hs, hu, ham]
    · simp [process_exchange, hs]

/-- C9 witness: a concrete Settle call whose escrow record account holds 105
zero bytes issues no token operation and errors. -/
theorem settle_uninitialized_record_fails_first_witness :
    (process_exchange (fun _ => .ok ()) zero32 0
      (mkAccount 1 true 0 [] zero32 none ::
        mkAccount 2 true 0 [] zero32 none ::
        mkAccount 8 true 0 [] zero32 none ::
        mkAccount 3 true 0 [] zero32 (some ⟨50⟩) ::
        mkAccount 4 true 0 [] zero32 none ::
        mkAccount 5 true 0 [] zero32 none ::
        [mkAccount 7 true 0 (List.replicate 105 0) zero32 none]) 50).1 = [] ∧
    ∃ err, (process_exchange (fun _ => .ok ()) zero32 0
      (mkAccount 1 true 0 [] zero32 none ::
        mkAccount 2 true 0 [] zero32 none ::
        mkAccount 8 true 0 [] zero32 none ::
        mkAccount 3 true 0 [] zero32 (some ⟨50⟩) ::
        mkAccount 4 true 0 [] zero32 none ::
        mkAccount 5 true 0 [] zero32 none ::
        [mkAccount 7 true 0 (List.replicate 105 0) zero32 none]) 50).2 = .error err :=
  settle_uninitialized_record_fails_first (fun _ => .ok ()) zero32 0
    (mkAccount 1 true 0 [] zero32 none ::
      mkAccount 2 true 0 [] zero32 none ::
      mkAccount 8 true 0 [] zero32 none ::
      mkAccount 3 true 0 [] zero32 (some ⟨50⟩) ::
      mkAccount 4 true 0 [] zero32 none ::
      mkAccount 5 true 0 [] zero32 none ::
      [mkAccount 7 true 0 (List.replicate 105 0) zero32 none]) 50
    (mkAccount 7 true 0 (List.replicate 105 0) zero32 none) rfl rfl

/-- C9 counterexample to the claimed mechanism: with all-zero supplied keys
and an all-zero record, the Settle call fails with `UninitializedAccount`,
raised by the strict decode — and the permissively decoded all-zero record
in fact matches all three supplied identities, so an all-zero record can
satisfy the identity-matching checks; they are simply never reached. -/
theorem settle_uninitialized_mechanism_counterexample :
    process_exchange (fun _ => .ok ()) zero32 0
      (⟨zero32, true, 0, [], zero32, none⟩ ::
        ⟨zero32, true, 0, [], zero32, none⟩ ::
        ⟨zero32, true, 0, [], zero32, none⟩ ::
        ⟨zero32, true, 0, [], zero32, some ⟨0⟩⟩ ::
        ⟨zero32, true, 0, [], zero32, none⟩ ::
        ⟨zero32, true, 0, [], zero32, none⟩ ::
        [⟨zero32, true, 0, List.replicate 105 0, zero32, none⟩]) 0 =
      ([], .error ProgramError.UninitializedAccount) ∧
    Escrow.unpack_unchecked (List.replicate 105 0) =
      .ok ⟨false, zero32, zero32, zero32, 0⟩ ∧
    (Escrow.mk false zero32 zero32 zero32 0).temp_token_account_pubkey = zero32 ∧
    (Escrow.mk false zero32 zero32 zero32 0).initializer_pubkey = zero32 ∧
    (Escrow.mk false zero32 zero32 zero32 0).initializer_token_to_receive_account_pubkey =
      zero32 :=
  ⟨rfl, rfl, rfl, rfl, rfl⟩

/-- The Settle handler's pre-movement validation chain as one decidable
predicate on the positional account list and the amount argument: the taker
(position 0) signed; the holding account's (position 3) token state unpacks
and its live balance equals the amount argument; the escrow record
(position 6) decodes strictly; and its three stored identities match the
supplied holding account, initializer main account (position 4) and
initializer receiving account (position 5). -/
def settle_checks_pass (accounts : List AccountInfo) (amount : Nat) : Bool :=
  match accounts with
  | taker :: _ :: _ :: ptemp :: imain :: irecv :: ea :: _ =>
    taker.is_signer &&
    (match TokenAccount.unpack ptemp.spl_account with
     | .ok info => amount == info.amount
     | .error _ => false) &&
    (match Escrow.unpack ea.data with
     | .ok e =>
        (e.temp_token_account_pubkey == ptemp.key) &&
        (e.initializer_pubkey == imain.key) &&
        (e.initializer_token_to_receive_account_pubkey == irecv.key)
     | .error _ => false)
  | _ => false

/-- C3: in every execution of the Settle handler, no asset-movement
operation is issued before the taker-signature check, the live-balance
check and the three record-identity checks have all passed: a nonempty
issued-invocation trace implies every one of those checks passed, and any
failure of those checks aborts the call with an error before the first
nested token operation (empty trace). -/
theorem settle_no_movement_before_checks
    (cpi : Invocation → Except ProgramError Unit) (pda : List Nat) (bump : Nat)
    (accounts : List AccountInfo) (amount : Nat) :
    ((process_exchange cpi pda bump accounts amount).1 ≠ [] →
      settle_checks_pass accounts amount = true) ∧
    (settle_checks_pass accounts amount = false →
      ∃ err, process_exchange cpi pda bump accounts amount = ([], .error err)) := by
  have key : settle_checks_pass accounts amount = false →
      ∃ err, process_exchange cpi pda bump accounts amount = ([], .error err) := by
    intro hfail
    rcases accounts with _ | ⟨a0, _ | ⟨a1, _ | ⟨a2, _ | ⟨a3, accounts2⟩⟩⟩⟩
    · exact ⟨ProgramError.NotEnoughAccountKeys, rfl⟩
    · by_cases hs : a0.is_signer
      · exact ⟨ProgramError.NotEnoughAccountKeys, by simp [process_exchange, hs]⟩
      · exact ⟨ProgramError.MissingRequiredSignature, by simp [process_exchange, hs]⟩
    · by_cases hs : a0.is_signer
      · exact ⟨ProgramError.NotEnoughAccountKeys, by simp [process_exchange, hs]⟩
      · exact ⟨ProgramError.MissingRequiredSignature, by simp [process_exchange, hs]⟩
    · by_cases hs : a0.is_signer
      · exact ⟨ProgramError.NotEnoughAccountKeys, by simp [process_exchange, hs]⟩
      · exact ⟨ProgramError.MissingRequiredSignature, by simp [process_exchange, hs]⟩
    · by_cases hs : a0.is_signer
      · cases hu : TokenAccount.unpack a3.spl_account with
        | error eu => exact ⟨eu, by simp [process_exchange, hs, hu]⟩
        | ok info =>
            by_cases ham : amount = info.amount
            · rcases accounts2 with _ | ⟨a4, _ | ⟨a5, _ | ⟨a6, accounts3⟩⟩⟩
              · exact ⟨ProgramError.NotEnoughAccountKeys,
                  by simp [process_exchange, hs, hu, ham]⟩
              · exact ⟨ProgramError.NotEnoughAccountKeys,
                  by simp [process_exchange, hs, hu, ham]⟩
              · exact ⟨ProgramError.NotEnoughAccountKeys,
                  by simp [process_exchange, hs, hu, ham]⟩
              · cases he : Escrow.unpack a6.data with
                | error ee => exact ⟨ee, by simp [process_exchange, hs, hu, ham, he]⟩
                | ok e =>
                    by_cases h1 : e.temp_token_account_pubkey = a3.key
                    · by_cases h2 : e.initializer_pubkey = a4.key
                      · by_cases h3 :
                          e.initializer_token_to_receive_account_pubkey = a5.key
                        · exfalso
                          simp [settle_checks_pass, hs, hu, ham, he, h1, h2, h3] at hfail
                        · exact ⟨ProgramError.InvalidAccountData,
                            by simp [process_exchange, hs, hu, ham, he, h1, h2, h3]⟩
                      · exact ⟨ProgramError.InvalidAccountData,
                          by simp [process_exchange, hs, hu, ham, he, h1, h2]⟩
                    · exact ⟨ProgramError.InvalidAccountData,
                        by simp [process_exchange, hs, hu, ham, he, h1]⟩
            · exact ⟨EscrowError.toProgramError .ExpectedAmountMismatch,
                by simp [process_exchange, hs, hu, ham]⟩
      · exact ⟨ProgramError.MissingRequiredSignature, by simp [process_exchange, hs]⟩
  refine ⟨?_, key⟩
  intro htrace
  by_cases hcp : settle_checks_pass accounts amount
  · exact hcp
  · obtain ⟨err, heq⟩ := key (by simpa using hcp)
    rw [heq] at htrace
    simp at htrace

/-- C3 witness: at a successful concrete Settle call the issued trace is
nonempty and the checks predicate holds, and on the empty account list the
checks fail and the call aborts with an error and an empty trace. -/
theorem settle_no_movement_before_checks_witness :
    settle_checks_pass
      (mkAccount 1 true 0 [] zero32 none ::
        mkAccount 2 true 0 [] zero32 none ::
        mkAccount 8 true 0 [] zero32 none ::
        mkAccount 3 true 0 [] zero32 (some ⟨50⟩) ::
        mkAccount 4 true 10 [] zero32 none ::
        mkAccount 5 true 0 [] zero32 none ::
        mkAccount 7 true 20 (Escrow.pack_into_slice sampleRecord) zero32 none ::
        mkAccount 6 true 0 [] zero32 none ::
        [mkAccount 9 true 0 [] zero32 none]) 50 = true ∧
    (∃ err, process_exchange (fun _ => .ok ()) zero32 0 [] 0 = ([], .error err)) :=
  ⟨(settle_no_movement_before_checks (fun _ => .ok ()) zero32 251
      (mkAccount 1 true 0 [] zero32 none ::
        mkAccount 2 true 0 [] zero32 none ::
        mkAccount 8 true 0 [] zero32 none ::
        mkAccount 3 true 0 [] zero32 (some ⟨50⟩) ::
        mkAccount 4 true 10 [] zero32 none ::
        mkAccount 5 true 0 [] zero32 none ::
        mkAccount 7 true 20 (Escrow.pack_into_slice sampleRecord) zero32 none ::
        mkAccount 6 true 0 [] zero32 none ::
        [mkAccount 9 true 0 [] zero32 none]) 50).1 (by decide),
   (settle_no_movement_before_checks (fun _ => .ok ()) zero32 0 [] 0).2 rfl⟩

theorem escrow_error_codes_witness :
    EscrowError.InvalidInstruction = EscrowError.InvalidInstruction :=
  escrow_error_codes.2.2.2.2 .InvalidInstruction .InvalidInstruction rfl
